import Mathlib

/-!
Verification of the TOON decoder/validator pipeline.

The development shallowly embeds the pipeline's source files:
the streaming partial decoder (parsePartialToon, repairPartialToon,
looksComplete), the secure decoder (secureToonParse with its
pollution scan filter and the two suspect-pattern pre-screens), the
throwing decode-and-validate variant (parseToon), and the
validate-with-repair orchestrator (parseAndValidateObjectResult and
parseAndValidateObjectResultWithRepair).

External collaborators (the trusted TOON grammar decoder, the schema
validator, and the repair collaborator) are taken as function
parameters, exactly as the spec treats them (out-of-scope trusted
primitives).  JavaScript strings are modelled as lists of characters;
JavaScript object trees as an inductive value type whose object nodes
carry their own enumerable string keys in insertion order (the grammar
decoder produces unique keys).
-/

namespace ToonFmt

/-- Generic decoded value tree: null, booleans, numbers, strings,
arrays, and objects (own enumerable data properties, insertion order,
unique keys as produced by the grammar decoder). -/
inductive JSONValue where
  | null : JSONValue
  | bool (b : Bool) : JSONValue
  | num (n : Int) : JSONValue
  | str (s : List Char) : JSONValue
  | arr (items : List JSONValue) : JSONValue
  | obj (fields : List (String × JSONValue)) : JSONValue

/-- JavaScript whitespace: the regex class \s, which is also the
character set used by String.prototype.trim and trimEnd. -/
def jsWs (c : Char) : Bool :=
  (c == ' ') || (c == '\t') || (c == '\n') || (c == '\r') ||
  (c == '\x0b') || (c == '\x0c') || (c == ' ') || (c == ' ') ||
  (decide (' ' ≤ c) && decide (c ≤ ' ')) ||
  (c == ' ') || (c == ' ') || (c == ' ') ||
  (c == ' ') || (c == '　') || (c == '﻿')

/-- JavaScript String.prototype.trimEnd on a character list. -/
def trimEndJsL (l : List Char) : List Char :=
  (l.reverse.dropWhile jsWs).reverse

/-- JavaScript String.prototype.trimStart on a character list. -/
def trimStartJsL (l : List Char) : List Char :=
  l.dropWhile jsWs

/-- JavaScript String.prototype.trim on a character list. -/
def trimJsL (l : List Char) : List Char :=
  trimStartJsL (trimEndJsL l)

/-- Checks if a TOON line looks complete (looksComplete in the source):
empty after trailing trim, or the trimmed line ends with the colon
terminator, or the trimmed line holds an even number of double quotes. -/
def looksComplete (line : List Char) : Bool :=
  let trimmed := trimEndJsL line
  if trimmed.length = 0 then true
  else if trimmed.getLast? == some ':' then true
  else trimmed.count '"' % 2 == 0

/-- JavaScript text.split('\n'): accumulator-based splitter. -/
def splitLinesAux : List Char → List Char → List (List Char)
  | [], acc => [acc.reverse]
  | c :: cs, acc =>
    if c = '\n' then acc.reverse :: splitLinesAux cs []
    else splitLinesAux cs (c :: acc)

/-- JavaScript text.split('\n'). -/
def splitLines (text : List Char) : List (List Char) :=
  splitLinesAux text []

/-- JavaScript lines.join('\n'). -/
def joinLines : List (List Char) → List Char
  | [] => []
  | [l] => l
  | l :: l' :: ls => l ++ '\n' :: joinLines (l' :: ls)

/-- The backward scan of repairPartialToon: for i from the line count
down to 0, take the first i lines, join and trim them, skip empty
candidates, and return the first candidate whose last line looks
complete; return none when the scan is exhausted. -/
def repairSearch (lines : List (List Char)) : Nat → Option (List Char)
  | 0 => none
  | i + 1 =>
    let kept := lines.take (i + 1)
    let candidate := trimEndJsL (joinLines kept)
    if candidate.length = 0 then repairSearch lines i
    else
      match kept.getLast? with
      | none => repairSearch lines i
      | some lastLine =>
        if looksComplete lastLine then some candidate
        else repairSearch lines i

/-- Attempts to repair TOON text by removing incomplete trailing
content (repairPartialToon in the source). -/
def repairPartialToon (text : List Char) : Option (List Char) :=
  if (trimJsL text).length = 0 then none
  else repairSearch (splitLines text) (splitLines text).length

/-- The four states of a PartialParseOutcome. -/
inductive PartialState where
  | undefinedInput : PartialState
  | successfulParse : PartialState
  | repairedParse : PartialState
  | failedParse : PartialState
deriving DecidableEq

/-- Attempts to parse partial TOON text (parsePartialToon in the
source).  The Result Wrapper decode (safeParseToon without a schema)
is the parameter `parse`: some value on success, none on failure. -/
def parsePartialToon (parse : List Char → Option JSONValue)
    (toonText : Option (List Char)) : Option JSONValue × PartialState :=
  match toonText with
  | none => (none, PartialState.undefinedInput)
  | some text =>
    match parse text with
    | some v => (some v, PartialState.successfulParse)
    | none =>
      match repairPartialToon text with
      | some repairedText =>
        if repairedText = text then (none, PartialState.failedParse)
        else
          match parse repairedText with
          | some v => (some v, PartialState.repairedParse)
          | none => (none, PartialState.failedParse)
      | none => (none, PartialState.failedParse)

/-- Claim C5: for every single line, the completeness heuristic
returns true iff the line is empty after trimming trailing whitespace,
or the trimmed line ends with the ':' terminator, or the trimmed line
holds an even number of double quotes; and an odd quote count is the
only way a non-empty line is judged incomplete. -/
theorem looksComplete_spec (line : List Char) :
    (looksComplete line = true ↔
      ((trimEndJsL line).length = 0 ∨
        (trimEndJsL line).getLast? = some ':' ∨
        (trimEndJsL line).count '"' % 2 = 0)) ∧
    (looksComplete line = false ↔
      ((trimEndJsL line).length ≠ 0 ∧
        (trimEndJsL line).getLast? ≠ some ':' ∧
        (trimEndJsL line).count '"' % 2 = 1)) := by
  unfold looksComplete
  by_cases h0 : (trimEndJsL line).length = 0
  · simp [h0]
  · by_cases h1 : (trimEndJsL line).getLast? = some ':'
    · simp [h0, h1]
    · have hq : (trimEndJsL line).count '"' % 2 = 0 ∨
          (trimEndJsL line).count '"' % 2 = 1 := Nat.mod_two_eq_zero_or_one _
      rcases hq with hq | hq <;> simp [h0, h1, hq]

/-- Claim C7: parsing an undefined input always yields the
undefined-input state with no value; a supplied string (empty or
whitespace-only included) never yields the undefined-input state, and
is attempted as a normal parse (a successful parse of the supplied
string yields successful-parse with its value). -/
theorem parsePartialToon_undefined_input
    (parse : List Char → Option JSONValue) :
    parsePartialToon parse none = (none, PartialState.undefinedInput) ∧
    (∀ s : List Char,
      (parsePartialToon parse (some s)).2 ≠ PartialState.undefinedInput) ∧
    (∀ (s : List Char) (v : JSONValue), parse s = some v →
      parsePartialToon parse (some s) = (some v, PartialState.successfulParse)) := by
  refine ⟨rfl, ?_, ?_⟩
  · intro s
    unfold parsePartialToon
    cases hp : parse s with
    | some v => simp [hp]
    | none =>
      cases hr : repairPartialToon s with
      | none => simp [hp, hr]
      | some r =>
        by_cases he : r = s
        · simp [hp, hr, he]
        · cases hp2 : parse r <;> simp [hp, hr, he, hp2]
  · intro s v hp
    simp [parsePartialToon, hp]

/-- Claim C7 witness: a concrete successful parse of the empty string
goes through the normal parse path. -/
theorem parsePartialToon_undefined_input_witness :
    parsePartialToon (fun _ => some JSONValue.null) (some []) =
      (some JSONValue.null, PartialState.successfulParse) :=
  (parsePartialToon_undefined_input (fun _ => some JSONValue.null)).2.2
    [] JSONValue.null rfl

/-- Claim C8: for every input (undefined included), the outcome's
value is defined iff the state is successful-parse or repaired-parse;
in the undefined-input and failed-parse states the value is undefined. -/
theorem parsePartialToon_value_iff_state
    (parse : List Char → Option JSONValue)
    (input : Option (List Char)) :
    ((parsePartialToon parse input).1.isSome = true ↔
      ((parsePartialToon parse input).2 = PartialState.successfulParse ∨
        (parsePartialToon parse input).2 = PartialState.repairedParse)) ∧
    (((parsePartialToon parse input).2 = PartialState.undefinedInput ∨
        (parsePartialToon parse input).2 = PartialState.failedParse) →
      (parsePartialToon parse input).1 = none) := by
  unfold parsePartialToon
  cases input with
  | none => simp
  | some text =>
    cases hp : parse text with
    | some v => simp [hp]
    | none =>
      cases hr : repairPartialToon text with
      | none => simp [hp, hr]
      | some r =>
        by_cases he : r = text
        · simp [hp, hr, he]
        · cases hp2 : parse r <;> simp [hp, hr, he, hp2]

theorem splitLinesAux_ne_nil (l acc : List Char) : splitLinesAux l acc ≠ [] := by
  induction l generalizing acc with
  | nil => simp [splitLinesAux]
  | cons c cs ih =>
    unfold splitLinesAux
    by_cases h : c = '\n' <;> simp [h, ih]

theorem joinLines_splitLinesAux (l acc : List Char) :
    joinLines (splitLinesAux l acc) = acc.reverse ++ l := by
  induction l generalizing acc with
  | nil => simp [splitLinesAux, joinLines]
  | cons c cs ih =>
    unfold splitLinesAux
    by_cases h : c = '\n'
    · subst h
      rw [if_pos rfl]
      obtain ⟨r, rs, hr⟩ : ∃ r rs, splitLinesAux cs [] = r :: rs := by
        cases hsplit : splitLinesAux cs [] with
        | nil => exact absurd hsplit (splitLinesAux_ne_nil cs [])
        | cons r rs => exact ⟨r, rs, rfl⟩
      have h2 := ih ([])
      rw [hr] at h2 ⊢
      simp only [List.reverse_nil, List.nil_append] at h2
      simp [joinLines, h2]
    · rw [if_neg h, ih (c :: acc)]
      simp

theorem joinLines_splitLines (text : List Char) :
    joinLines (splitLines text) = text := by
  simpa using joinLines_splitLinesAux text []

theorem splitLines_ne_nil (text : List Char) : splitLines text ≠ [] :=
  splitLinesAux_ne_nil text []

theorem last_not_ws_of_trimEnd_fix (ys : List Char) (c : Char)
    (h : trimEndJsL (ys ++ [c]) = ys ++ [c]) : jsWs c = false := by
  by_contra hc
  rw [Bool.not_eq_false] at hc
  unfold trimEndJsL at h
  rw [List.reverse_append] at h
  simp only [List.reverse_cons, List.reverse_nil, List.nil_append,
    List.singleton_append, List.dropWhile_cons, hc, if_true] at h
  have hlen := congrArg List.length h
  have hle := (@List.dropWhile_sublist Char ys.reverse jsWs).length_le
  simp only [List.length_reverse, List.length_append, List.length_singleton] at hlen hle
  omega

theorem dropWhile_concat_ne_nil (p : Char → Bool) (ys : List Char) (c : Char)
    (hc : p c = false) : List.dropWhile p (ys ++ [c]) ≠ [] := by
  induction ys with
  | nil => simp [List.dropWhile, hc]
  | cons y ys ih =>
    by_cases hy : p y <;> simp [List.dropWhile_cons, hy, ih]

theorem trimJsL_ne_nil_of_no_trailing_ws (text : List Char) (hne : text ≠ [])
    (htrim : trimEndJsL text = text) : trimJsL text ≠ [] := by
  obtain ⟨ys, c, rfl⟩ : ∃ ys c, text = ys ++ [c] := by
    rcases List.eq_nil_or_concat text with h | ⟨ys, c, h⟩
    · exact absurd h hne
    · exact ⟨ys, c, by simpa [List.concat_eq_append] using h⟩
  have hc := last_not_ws_of_trimEnd_fix ys c htrim
  unfold trimJsL trimStartJsL
  rw [htrim]
  exact dropWhile_concat_ne_nil jsWs ys c hc

/-- Claim C8 witness: the value/state invariant applied at a concrete
failing parse, whose state is failed-parse and whose value is
undefined. -/
theorem parsePartialToon_value_iff_state_witness :
    (parsePartialToon (fun _ => none) (some ('a' :: []))).1 = none :=
  (parsePartialToon_value_iff_state (fun _ => none) (some ('a' :: []))).2
    (Or.inr rfl)

/-- Claim C10: for every non-empty text with no trailing whitespace
whose full parse fails and whose last line passes the completeness
heuristic, the repair search returns the original text itself, the
equality guard suppresses the retry, and the partial decoder reports
failed-parse without attempting any shorter prefix. -/
theorem parsePartialToon_complete_last_line_failed
    (parse : List Char → Option JSONValue) (text lst : List Char)
    (hne : text ≠ [])
    (htrim : trimEndJsL text = text)
    (hparse : parse text = none)
    (hlast : (splitLines text).getLast? = some lst)
    (hcomplete : looksComplete lst = true) :
    repairPartialToon text = some text ∧
    parsePartialToon parse (some text) = (none, PartialState.failedParse) := by
  have hrepair : repairPartialToon text = some text := by
    unfold repairPartialToon
    have hj := joinLines_splitLines text
    have htr := trimJsL_ne_nil_of_no_trailing_ws text hne htrim
    rw [if_neg (by simpa [List.length_eq_zero] using htr)]
    obtain ⟨L, Ls, hL⟩ : ∃ L Ls, splitLines text = L :: Ls := by
      cases hsplit : splitLines text with
      | nil => exact absurd hsplit (splitLines_ne_nil text)
      | cons L Ls => exact ⟨L, Ls, rfl⟩
    rw [hL] at hj hlast ⊢
    show repairSearch (L :: Ls) (Ls.length + 1) = some text
    unfold repairSearch
    have hTake : (L :: Ls).take (Ls.length + 1) = L :: Ls := by
      simp [← List.length_cons, List.take_length]
    simp only [hTake, hj, htrim, hlast]
    rw [if_neg (by simpa [List.length_eq_zero] using hne)]
    simp only [hcomplete, if_true]
  refine ⟨hrepair, ?_⟩
  simp [parsePartialToon, hparse, hrepair]

/-- Concrete decode oracle for settling claim C1: only the exact text
"a:" decodes successfully; every other text fails. -/
def cexParse : List Char → Option JSONValue :=
  fun s =>
    if s = "a:".toList then some (JSONValue.obj [("a", JSONValue.null)])
    else none

/-- Concrete streamed buffer for settling claim C1: the full text and
the first looks-complete candidate "a:\nb c" both fail to decode under
cexParse, while the strictly shorter prefix "a:" decodes. -/
def cexText : List Char := "a:\nb c\nd\"e".toList

/-- Claim C1 counterexample: the full parse of cexText fails, the
backward search accepts the candidate "a:\nb c" whose own decode also
fails, a strictly shorter prefix candidate "a:" looks complete and
decodes successfully, yet the partial decoder reports failed-parse:
the search does not continue to shorter prefixes after the accepted
candidate's decode fails. -/
theorem parsePartialToon_no_continue_counterexample :
    cexParse cexText = none ∧
    repairPartialToon cexText = some ("a:\nb c".toList) ∧
    cexParse ("a:\nb c".toList) = none ∧
    trimEndJsL (joinLines ((splitLines cexText).take 1)) = "a:".toList ∧
    looksComplete ("a:".toList) = true ∧
    (cexParse ("a:".toList)).isSome = true ∧
    parsePartialToon cexParse (some cexText) = (none, PartialState.failedParse) :=
  ⟨rfl, rfl, rfl, rfl, rfl, rfl, rfl⟩

/-- Claim C1 amended: the backward search stops at the first candidate
whose last line looks complete; when that candidate's own full decode
fails (and likewise when the candidate equals the original text), the
partial decoder reports failed-parse without attempting any shorter
prefix. -/
theorem parsePartialToon_first_candidate_only
    (parse : List Char → Option JSONValue) (text cand : List Char)
    (hparse : parse text = none)
    (hrepair : repairPartialToon text = some cand)
    (hcand : parse cand = none) :
    parsePartialToon parse (some text) = (none, PartialState.failedParse) := by
  simp only [parsePartialToon, hparse, hrepair]
  by_cases he : cand = text
  · rw [if_pos he]
  · rw [if_neg he, hcand]

/-- Claim C1 witness: the amended behaviour at the concrete oracle and
buffer of the counterexample. -/
theorem parsePartialToon_first_candidate_only_witness :
    parsePartialToon cexParse (some cexText) = (none, PartialState.failedParse) :=
  parsePartialToon_first_candidate_only cexParse cexText ("a:\nb c".toList)
    rfl rfl rfl

/-- Claim C10 witness: a concrete non-empty buffer with no trailing
whitespace, a failing full parse, and a complete-looking last line is
reported as failed-parse with the repair candidate equal to the text. -/
theorem parsePartialToon_complete_last_line_failed_witness :
    repairPartialToon ("a: 1\nb: 2".toList) = some ("a: 1\nb: 2".toList) ∧
    parsePartialToon (fun _ => none) (some ("a: 1\nb: 2".toList)) =
      (none, PartialState.failedParse) :=
  parsePartialToon_complete_last_line_failed (fun _ => none)
    ("a: 1\nb: 2".toList) ("b: 2".toList) (by decide) (by decide) rfl rfl
    (by decide)

/-- A value is composite when it is an object or an array (JavaScript:
non-null with typeof 'object'). -/
def isComposite : JSONValue → Bool
  | JSONValue.arr _ => true
  | JSONValue.obj _ => true
  | _ => false

/-- Whether an object's own data properties include key k. -/
def objOwns (fields : List (String × JSONValue)) (k : String) : Bool :=
  fields.any (fun f => f.1 == k)

/-- The value of an object's own data property k (last write wins, as
JavaScript property assignment does; the grammar decoder produces
unique keys, under which this is the unique binding). -/
def ownValue (fields : List (String × JSONValue)) (k : String) : Option JSONValue :=
  ((fields.filter (fun f => f.1 == k)).getLast?).map (fun f => f.2)

/-- hasOwnProperty.call(node, k) for a node already known to be a
non-null object value: objects own their data keys; arrays own none of
the keys the scan queries. -/
def nodeOwns : JSONValue → String → Bool
  | JSONValue.obj fields, k => objOwns fields k
  | _, _ => false

/-- Object.prototype.hasOwnProperty.call(v, k) on an arbitrary value:
null cannot be converted to an object, raising a TypeError (modelled
as none); primitives coerce to wrappers owning none of the queried
keys; arrays own none of the queried keys. -/
def hasOwnPropJs : JSONValue → String → Option Bool
  | JSONValue.null, _ => none
  | JSONValue.obj fields, k => some (objOwns fields k)
  | _, _ => some false

/-- The value of a node's own constructor data property, when the node
owns one (only objects can). -/
def constructorValue : JSONValue → Option JSONValue
  | JSONValue.obj fields => ownValue fields "constructor"
  | _ => none

/-- The JavaScript errors crossing the decode/validate boundary:
normalized decode errors (JSONParseError, carrying the offending text
and the cause), validation errors (TypeValidationError), the scan's
SyntaxError, the TypeError raised by hasOwnProperty on null, and any
unrecognized error. -/
inductive JsErr where
  | jsonParseError (text : List Char) (cause : JsErr) : JsErr
  | typeValidationError (code : Nat) : JsErr
  | jsSyntaxError (msg : String) : JsErr
  | jsTypeError : JsErr
  | otherError (code : Nat) : JsErr
deriving DecidableEq

/-- The fixed message of the scan's rejection error. -/
def forbiddenMsg : String := "Object contains forbidden prototype property"

/-- Child values pushed by the scan's for..in loop: the node's own
composite (object or array) values; null and primitives are skipped. -/
def nodeChildren : JSONValue → List JSONValue
  | JSONValue.obj fields => (fields.map (fun f => f.2)).filter isComposite
  | JSONValue.arr items => items.filter isComposite
  | _ => []

/-- One node of the pollution scan: non-composite nodes are skipped; a
composite node owning __proto__ as a data key aborts with the
forbidden SyntaxError, as does one owning a constructor whose value
owns prototype; hasOwnProperty on a null constructor value raises a
TypeError; otherwise the node's composite children are enqueued. -/
def scanNode (node : JSONValue) : Except JsErr (List JSONValue) :=
  if isComposite node = false then Except.ok []
  else if nodeOwns node "__proto__" then
    Except.error (JsErr.jsSyntaxError forbiddenMsg)
  else
    match constructorValue node with
    | none => Except.ok (nodeChildren node)
    | some v =>
      match hasOwnPropJs v "prototype" with
      | none => Except.error JsErr.jsTypeError
      | some true => Except.error (JsErr.jsSyntaxError forbiddenMsg)
      | some false => Except.ok (nodeChildren node)

mutual

/-- Structural size of a value tree (the scan's termination measure). -/
def jsonSize : JSONValue → Nat
  | JSONValue.null => 1
  | JSONValue.bool _ => 1
  | JSONValue.num _ => 1
  | JSONValue.str _ => 1
  | JSONValue.arr items => 1 + jsonSizeList items
  | JSONValue.obj fields => 1 + jsonSizeFields fields

/-- Total size of a list of values. -/
def jsonSizeList : List JSONValue → Nat
  | [] => 0
  | x :: xs => jsonSize x + jsonSizeList xs

/-- Total size of an object's field list. -/
def jsonSizeFields : List (String × JSONValue) → Nat
  | [] => 0
  | f :: fs => jsonSize f.2 + jsonSizeFields fs

end

theorem one_le_jsonSize (n : JSONValue) : 1 ≤ jsonSize n := by
  cases n <;> simp [jsonSize]

theorem jsonSizeList_append (q r : List JSONValue) :
    jsonSizeList (q ++ r) = jsonSizeList q + jsonSizeList r := by
  induction q with
  | nil => simp [jsonSizeList]
  | cons a q ih => simp [jsonSizeList, ih]; omega

theorem jsonSizeList_filter_le (p : JSONValue → Bool) (l : List JSONValue) :
    jsonSizeList (l.filter p) ≤ jsonSizeList l := by
  induction l with
  | nil => simp [jsonSizeList]
  | cons a l ih =>
    by_cases h : p a <;> simp [List.filter_cons, h, jsonSizeList] <;> omega

theorem jsonSizeList_map_snd (fields : List (String × JSONValue)) :
    jsonSizeList (fields.map (fun f => f.2)) = jsonSizeFields fields := by
  induction fields with
  | nil => simp [jsonSizeList, jsonSizeFields]
  | cons f fs ih => simp [jsonSizeList, jsonSizeFields, ih]

theorem jsonSizeList_nodeChildren_lt (n : JSONValue) :
    jsonSizeList (nodeChildren n) < jsonSize n := by
  cases n with
  | arr items =>
    have h1 := jsonSizeList_filter_le isComposite items
    simp only [nodeChildren, jsonSize]
    omega
  | obj fields =>
    have h1 := jsonSizeList_filter_le isComposite (fields.map (fun f => f.2))
    have h2 := jsonSizeList_map_snd fields
    simp only [nodeChildren, jsonSize]
    omega
  | null => simp [nodeChildren, jsonSizeList, jsonSize]
  | bool b => simp [nodeChildren, jsonSizeList, jsonSize]
  | num m => simp [nodeChildren, jsonSizeList, jsonSize]
  | str s => simp [nodeChildren, jsonSizeList, jsonSize]

theorem scanNode_ok_jsonSizeList {node : JSONValue} {children : List JSONValue}
    (h : scanNode node = Except.ok children) :
    jsonSizeList children < jsonSize node := by
  have hone := one_le_jsonSize node
  have hchild := jsonSizeList_nodeChildren_lt node
  unfold scanNode at h
  split at h
  · simp only [Except.ok.injEq] at h
    subst h
    simp only [jsonSizeList]
    omega
  · split at h
    · simp at h
    · split at h
      · simp only [Except.ok.injEq] at h
        subst h
        exact hchild
      · split at h
        · simp at h
        · simp at h
        · simp only [Except.ok.injEq] at h
          subst h
          exact hchild

theorem scanQueue_dec {node : JSONValue} {rest children : List JSONValue}
    (h : scanNode node = Except.ok children) :
    jsonSizeList (rest ++ children) < jsonSizeList (node :: rest) := by
  have hlt := scanNode_ok_jsonSizeList h
  have happ := jsonSizeList_append rest children
  simp only [jsonSizeList]
  omega

/-- The breadth-first scan loop of filter in the source: process the
queued nodes in order, enqueuing each node's composite children behind
the remaining nodes. -/
def scanQueue : List JSONValue → Except JsErr Unit
  | [] => Except.ok ()
  | node :: rest =>
    match h : scanNode node with
    | Except.error e => Except.error e
    | Except.ok children => scanQueue (rest ++ children)
termination_by q => jsonSizeList q
decreasing_by exact scanQueue_dec h

theorem scanQueue_nil : scanQueue [] = Except.ok () := by
  conv_lhs => unfold scanQueue

theorem scanQueue_cons_error {node : JSONValue} {rest : List JSONValue}
    {e : JsErr} (h : scanNode node = Except.error e) :
    scanQueue (node :: rest) = Except.error e := by
  conv_lhs => unfold scanQueue
  split <;> simp_all

theorem scanQueue_cons_ok {node : JSONValue} {rest children : List JSONValue}
    (h : scanNode node = Except.ok children) :
    scanQueue (node :: rest) = scanQueue (rest ++ children) := by
  conv_lhs => unfold scanQueue
  split <;> simp_all

/-- The pollution scan (filter in the source): breadth-first scan of
the decoded tree starting from its root, returning the tree unchanged
when no forbidden pattern aborts the scan. -/
def filter (obj : JSONValue) : Except JsErr JSONValue :=
  match scanQueue [obj] with
  | Except.error e => Except.error e
  | Except.ok _ => Except.ok obj

/-- Attempts to match a literal at the head of a text, returning the
remaining text on success. -/
def litAt : List Char → List Char → Option (List Char)
  | [], rest => some rest
  | _ :: _, [] => none
  | p :: ps, c :: cs => if p = c then litAt ps cs else none

/-- After the literal: the regex tail \s*: of the suspect patterns. -/
def colonAfterWs (s : List Char) : Bool :=
  match s.dropWhile jsWs with
  | ':' :: _ => true
  | _ => false

/-- Whether a suspect pattern matches at the start of the text. -/
def rxHit (lit s : List Char) : Bool :=
  match litAt lit s with
  | some rest => colonAfterWs rest
  | none => false

/-- RegExp.prototype.test of a suspect pattern: the literal followed
by optional whitespace and a colon, anywhere in the text. -/
def rxTest (lit : List Char) : List Char → Bool
  | [] => rxHit lit []
  | c :: cs => rxHit lit (c :: cs) || rxTest lit cs

/-- The literal of the pattern suspectProtoRx in the source. -/
def suspectProtoRx : List Char := "\"__proto__\"".toList

/-- The literal of the pattern suspectConstructorRx in the source. -/
def suspectConstructorRx : List Char := "\"constructor\"".toList

/-- Securely parse TOON text (secureToonParse in the source).  The
trusted grammar decoder is the parameter decode.  A null or
non-composite root is returned immediately; when neither suspect
pattern occurs in the raw text the decoded value is returned without a
tree scan; otherwise the pollution scan runs. -/
def secureToonParse (decode : List Char → Except JsErr JSONValue)
    (text : List Char) : Except JsErr JSONValue :=
  match decode text with
  | Except.error e => Except.error e
  | Except.ok obj =>
    if isComposite obj = false then Except.ok obj
    else if rxTest suspectProtoRx text = false &&
        rxTest suspectConstructorRx text = false then Except.ok obj
    else filter obj

/-- Whether a caught error is already a recognized JSONParseError or
TypeValidationError (the isInstance checks in the source). -/
def isRecognizedErr : JsErr → Bool
  | JsErr.jsonParseError _ _ => true
  | JsErr.typeValidationError _ => true
  | _ => false

/-- The try-block body of parseToon in the source: secure decode, then
optional schema validation (validateTypes, the external collaborator
validate; none models an absent schema). -/
def parseToonBody (decode : List Char → Except JsErr JSONValue)
    (validate : Option (JSONValue → Except JsErr JSONValue))
    (text : List Char) : Except JsErr JSONValue :=
  match secureToonParse decode text with
  | Except.error e => Except.error e
  | Except.ok v =>
    match validate with
    | none => Except.ok v
    | some f => f v

/-- parseToon in the source: any error raised by the body is wrapped
into a JSONParseError carrying the offending text and the cause,
unless it is already a recognized JSONParseError or
TypeValidationError, which is re-raised unchanged. -/
def parseToon (decode : List Char → Except JsErr JSONValue)
    (validate : Option (JSONValue → Except JsErr JSONValue))
    (text : List Char) : Except JsErr JSONValue :=
  match parseToonBody decode validate text with
  | Except.ok v => Except.ok v
  | Except.error e =>
    if isRecognizedErr e then Except.error e
    else Except.error (JsErr.jsonParseError text e)

/-- Claim C3: when the trusted grammar decoder succeeds, a null or
non-composite root is returned unchanged; and when the raw text
matches neither suspect pattern, secure decode returns the decoded
value with no tree scan and never raises the forbidden-property error,
regardless of the keys the decoded tree owns. -/
theorem secureToonParse_fast_path
    (decode : List Char → Except JsErr JSONValue) (text : List Char)
    (v : JSONValue) (hdec : decode text = Except.ok v) :
    (isComposite v = false → secureToonParse decode text = Except.ok v) ∧
    (rxTest suspectProtoRx text = false →
      rxTest suspectConstructorRx text = false →
      secureToonParse decode text = Except.ok v) := by
  constructor
  · intro h
    simp [secureToonParse, hdec, h]
  · intro h1 h2
    by_cases hc : isComposite v = false <;>
      simp [secureToonParse, hdec, hc, h1, h2]

/-- Claim C3 witness: a non-composite root is returned unchanged, and
a decoded tree owning __proto__ is returned unchanged when the raw
text holds no suspect pattern. -/
theorem secureToonParse_fast_path_witness :
    secureToonParse (fun _ => Except.ok JSONValue.null) ("x: 1".toList) =
      Except.ok JSONValue.null ∧
    secureToonParse
        (fun _ => Except.ok (JSONValue.obj [("__proto__", JSONValue.null)]))
        ("x: 1".toList) =
      Except.ok (JSONValue.obj [("__proto__", JSONValue.null)]) :=
  ⟨(secureToonParse_fast_path (fun _ => Except.ok JSONValue.null)
      ("x: 1".toList) JSONValue.null rfl).1 rfl,
   (secureToonParse_fast_path
      (fun _ => Except.ok (JSONValue.obj [("__proto__", JSONValue.null)]))
      ("x: 1".toList) (JSONValue.obj [("__proto__", JSONValue.null)]) rfl).2
      (by decide) (by decide)⟩

/-- Claim C9: every error raised by the decode-and-validate body
crosses the boundary as a normalized JSONParseError carrying the
offending text and the cause, except errors that are already a
recognized JSONParseError or TypeValidationError, which are re-raised
unchanged. -/
theorem parseToon_error_normalization
    (decode : List Char → Except JsErr JSONValue)
    (validate : Option (JSONValue → Except JsErr JSONValue))
    (text : List Char) (e : JsErr)
    (herr : parseToonBody decode validate text = Except.error e) :
    parseToon decode validate text =
      Except.error
        (if isRecognizedErr e then e else JsErr.jsonParseError text e) := by
  simp only [parseToon, herr]
  by_cases h : isRecognizedErr e <;> simp [h]

/-- Claim C9 witness: an unrecognized decoder error is wrapped with
the text and cause, a recognized decode error is re-raised unchanged. -/
theorem parseToon_error_normalization_witness :
    parseToon (fun _ => Except.error (JsErr.otherError 7)) none [] =
      Except.error (JsErr.jsonParseError [] (JsErr.otherError 7)) ∧
    parseToon
        (fun _ => Except.error (JsErr.jsonParseError [] (JsErr.otherError 3)))
        none [] =
      Except.error (JsErr.jsonParseError [] (JsErr.otherError 3)) :=
  ⟨parseToon_error_normalization (fun _ => Except.error (JsErr.otherError 7))
      none [] (JsErr.otherError 7) rfl,
   by
    have h := parseToon_error_normalization
      (fun _ => Except.error (JsErr.jsonParseError [] (JsErr.otherError 3)))
      none [] (JsErr.jsonParseError [] (JsErr.otherError 3)) rfl
    simpa using h⟩

theorem jsonSize_le_of_mem {x : JSONValue} {l : List JSONValue} (h : x ∈ l) :
    jsonSize x ≤ jsonSizeList l := by
  induction l with
  | nil => cases h
  | cons a l ih =>
    rcases List.mem_cons.mp h with rfl | h2
    · simp [jsonSizeList]
    · have := ih h2
      simp [jsonSizeList]
      omega

theorem jsonSize_lt_of_mem_children {x n : JSONValue}
    (h : x ∈ nodeChildren n) : jsonSize x < jsonSize n :=
  lt_of_le_of_lt (jsonSize_le_of_mem h) (jsonSizeList_nodeChildren_lt n)

theorem attach_any_eq {α : Type} (l : List α) (f : α → Bool) :
    (l.attach.any fun c => f c.1) = l.any f := by
  by_cases h : l.any f = true
  · rw [h, List.any_eq_true]
    rw [List.any_eq_true] at h
    obtain ⟨x, hx, hfx⟩ := h
    exact ⟨⟨x, hx⟩, List.mem_attach l ⟨x, hx⟩, hfx⟩
  · rw [Bool.not_eq_true] at h
    rw [h, List.any_eq_false]
    rw [List.any_eq_false] at h
    intro c hc
    exact h c.1 c.2

/-- Whether a single node carries a forbidden pattern: it owns
__proto__ as an explicit data key, or owns a constructor whose value
itself owns a prototype data key. -/
def nodeForbidden (n : JSONValue) : Bool :=
  nodeOwns n "__proto__" ||
    (match constructorValue n with
     | some v => nodeOwns v "prototype"
     | none => false)

/-- Whether a node owns a constructor property whose value is null
(the case where hasOwnProperty raises a TypeError in the scan). -/
def nodeNullConstructor (n : JSONValue) : Bool :=
  match constructorValue n with
  | some JSONValue.null => true
  | _ => false

/-- Whether some node reachable by the scan (through chains of
composite children) carries a forbidden pattern. -/
def hasForbidden (n : JSONValue) : Bool :=
  nodeForbidden n || (nodeChildren n).attach.any fun c => hasForbidden c.1
termination_by jsonSize n
decreasing_by exact jsonSize_lt_of_mem_children c.2

/-- Whether some node reachable by the scan owns a null-valued
constructor property. -/
def hasNullConstructor (n : JSONValue) : Bool :=
  nodeNullConstructor n ||
    (nodeChildren n).attach.any fun c => hasNullConstructor c.1
termination_by jsonSize n
decreasing_by exact jsonSize_lt_of_mem_children c.2

theorem hasForbidden_eq (n : JSONValue) :
    hasForbidden n = (nodeForbidden n || (nodeChildren n).any hasForbidden) := by
  conv_lhs => unfold hasForbidden
  rw [attach_any_eq]

theorem hasNullConstructor_eq (n : JSONValue) :
    hasNullConstructor n =
      (nodeNullConstructor n || (nodeChildren n).any hasNullConstructor) := by
  conv_lhs => unfold hasNullConstructor
  rw [attach_any_eq]

theorem scanNode_spec (node : JSONValue)
    (hnn : nodeNullConstructor node = false) :
    scanNode node =
      (if nodeForbidden node then
        Except.error (JsErr.jsSyntaxError forbiddenMsg)
      else Except.ok (nodeChildren node)) := by
  cases node with
  | null => simp [scanNode, nodeForbidden, nodeOwns, constructorValue,
      nodeChildren, isComposite]
  | bool b => simp [scanNode, nodeForbidden, nodeOwns, constructorValue,
      nodeChildren, isComposite]
  | num m => simp [scanNode, nodeForbidden, nodeOwns, constructorValue,
      nodeChildren, isComposite]
  | str s => simp [scanNode, nodeForbidden, nodeOwns, constructorValue,
      nodeChildren, isComposite]
  | arr items => simp [scanNode, nodeForbidden, nodeOwns, constructorValue,
      nodeChildren, isComposite]
  | obj fields =>
    unfold scanNode nodeForbidden
    simp only [isComposite]
    by_cases hp : nodeOwns (JSONValue.obj fields) "__proto__"
    · simp [hp]
    · simp only [hp, if_neg, Bool.false_eq_true, if_false, Bool.false_or]
      cases hcv : constructorValue (JSONValue.obj fields) with
      | none => simp
      | some v =>
        cases v with
        | null =>
          exfalso
          unfold nodeNullConstructor at hnn
          rw [hcv] at hnn
          simp at hnn
        | bool b => simp [hasOwnPropJs, nodeOwns]
        | num m => simp [hasOwnPropJs, nodeOwns]
        | str s => simp [hasOwnPropJs, nodeOwns]
        | arr items => simp [hasOwnPropJs, nodeOwns]
        | obj fs2 =>
          simp only [hasOwnPropJs, nodeOwns]
          by_cases ho : objOwns fs2 "prototype" <;> simp [ho]

theorem scanQueue_spec (fuel : Nat) : ∀ q : List JSONValue,
    jsonSizeList q < fuel →
    (∀ n ∈ q, hasNullConstructor n = false) →
    scanQueue q =
      (if q.any hasForbidden then
        Except.error (JsErr.jsSyntaxError forbiddenMsg)
      else Except.ok ()) := by
  induction fuel with
  | zero =>
    intro q hsize
    omega
  | succ fuel ih =>
    intro q hsize hnc
    cases q with
    | nil => simp [scanQueue_nil]
    | cons node rest =>
      have hncn : hasNullConstructor node = false := hnc node (by simp)
      rw [hasNullConstructor_eq] at hncn
      have hnn : nodeNullConstructor node = false :=
        (Bool.or_eq_false_iff.mp hncn).1
      have hchildnc : ∀ c ∈ nodeChildren node, hasNullConstructor c = false := by
        have h2 := (Bool.or_eq_false_iff.mp hncn).2
        rw [List.any_eq_false] at h2
        intro c hc
        have := h2 c hc
        rwa [Bool.not_eq_true] at this
      have hscan := scanNode_spec node hnn
      by_cases hf : nodeForbidden node = true
      · rw [if_pos hf] at hscan
        rw [scanQueue_cons_error hscan]
        have hany : (node :: rest).any hasForbidden = true := by
          rw [List.any_cons, hasForbidden_eq, hf]
          simp
        rw [hany, if_pos rfl]
      · have hf' : nodeForbidden node = false := by
          rwa [Bool.not_eq_true] at hf
        rw [if_neg hf] at hscan
        rw [scanQueue_cons_ok hscan]
        have hdec := @scanQueue_dec node rest (nodeChildren node) hscan
        have hsize2 : jsonSizeList (rest ++ nodeChildren node) < fuel := by
          omega
        have hnc2 : ∀ n ∈ rest ++ nodeChildren node,
            hasNullConstructor n = false := by
          intro m hm
          rcases List.mem_append.mp hm with hm | hm
          · exact hnc m (List.mem_cons_of_mem _ hm)
          · exact hchildnc m hm
        rw [ih _ hsize2 hnc2]
        have hsame : (rest ++ nodeChildren node).any hasForbidden =
            (node :: rest).any hasForbidden := by
          rw [List.any_append, List.any_cons, hasForbidden_eq, hf']
          simp [Bool.or_comm]
        rw [hsame]

theorem filter_spec (obj : JSONValue) (h : hasNullConstructor obj = false) :
    filter obj =
      (if hasForbidden obj then
        Except.error (JsErr.jsSyntaxError forbiddenMsg)
      else Except.ok obj) := by
  unfold filter
  rw [scanQueue_spec (jsonSizeList [obj] + 1) [obj] (by omega)
    (by intro n hn; simp at hn; subst hn; exact h)]
  by_cases hf : hasForbidden obj = true <;> simp [hf]

/-- Claim C4 counterexample: on the tree owning a null-valued
constructor property, no reachable node carries a forbidden pattern,
yet the scan neither returns the tree unchanged nor raises the
forbidden SyntaxError: hasOwnProperty on the null constructor value
raises a TypeError instead. -/
theorem filter_typeError_counterexample :
    hasForbidden (JSONValue.obj [("constructor", JSONValue.null)]) = false ∧
    filter (JSONValue.obj [("constructor", JSONValue.null)]) =
      Except.error JsErr.jsTypeError ∧
    filter (JSONValue.obj [("constructor", JSONValue.null)]) ≠
      Except.ok (JSONValue.obj [("constructor", JSONValue.null)]) ∧
    filter (JSONValue.obj [("constructor", JSONValue.null)]) ≠
      Except.error (JsErr.jsSyntaxError forbiddenMsg) := by
  have hscan : scanNode (JSONValue.obj [("constructor", JSONValue.null)]) =
      Except.error JsErr.jsTypeError := rfl
  have hq := @scanQueue_cons_error (JSONValue.obj [("constructor", JSONValue.null)])
    [] JsErr.jsTypeError hscan
  refine ⟨?_, ?_, ?_, ?_⟩
  · rw [hasForbidden_eq]
    rfl
  · unfold filter
    rw [hq]
  · unfold filter
    rw [hq]
    simp
  · unfold filter
    rw [hq]
    simp [forbiddenMsg]

/-- Claim C4 amended: provided no reachable composite node owns a
constructor property whose value is null, the scan fails with the
SyntaxError message 'Object contains forbidden prototype property'
iff some reachable composite node directly owns __proto__ as a data
key or owns a constructor whose value owns a prototype key; otherwise
the scan returns the decoded value unchanged. -/
theorem filter_forbidden_iff (obj : JSONValue)
    (h : hasNullConstructor obj = false) :
    (filter obj = Except.error (JsErr.jsSyntaxError forbiddenMsg) ↔
      hasForbidden obj = true) ∧
    (hasForbidden obj = false → filter obj = Except.ok obj) := by
  have hs := filter_spec obj h
  refine ⟨⟨?_, ?_⟩, ?_⟩
  · intro hf
    by_cases hb : hasForbidden obj = true
    · exact hb
    · rw [hs, if_neg hb] at hf
      simp at hf
  · intro hb
    rw [hs, if_pos hb]
  · intro hb
    rw [hs, hb]
    simp

/-- Claim C4 witness: the amended scan behaviour on a tree owning
__proto__ (rejected with the fixed message) and on a harmless tree
(returned unchanged). -/
theorem filter_forbidden_iff_witness :
    filter (JSONValue.obj [("__proto__", JSONValue.null)]) =
      Except.error (JsErr.jsSyntaxError forbiddenMsg) ∧
    filter (JSONValue.obj [("a", JSONValue.bool true)]) =
      Except.ok (JSONValue.obj [("a", JSONValue.bool true)]) := by
  constructor
  · exact (filter_forbidden_iff (JSONValue.obj [("__proto__", JSONValue.null)])
      (by rw [hasNullConstructor_eq]; rfl)).1.mpr
      (by rw [hasForbidden_eq]; rfl)
  · exact (filter_forbidden_iff (JSONValue.obj [("a", JSONValue.bool true)])
      (by rw [hasNullConstructor_eq]; rfl)).2
      (by rw [hasForbidden_eq]; rfl)

/-- The cause classes a terminal error can carry: JSON parse errors
(JSONParseError), type validation errors (TypeValidationError), or
any other error kind. -/
inductive Cause where
  | jsonParse (code : Nat) : Cause
  | typeValidation (code : Nat) : Cause
  | other (code : Nat) : Cause
deriving DecidableEq

/-- The gate of the repair branch in the source:
JSONParseError.isInstance(cause) or TypeValidationError.isInstance(cause). -/
def Cause.isRepairable : Cause → Bool
  | Cause.jsonParse _ => true
  | Cause.typeValidation _ => true
  | Cause.other _ => false

/-- The orchestrator's terminal error (NoObjectGeneratedError in the
source), carrying the human-readable message, the cause, the offending
text, and the generation context (response metadata, usage, finish
reason, abstracted as one value of type γ). -/
structure NoObjectGeneratedError (γ : Type) where
  message : String
  cause : Cause
  text : String
  context : γ

/-- Errors crossing the orchestrator boundary: terminal errors, or any
other thrown error (raised by a collaborator and not a
NoObjectGeneratedError). -/
inductive ObjGenThrown (γ : Type) where
  | noObjectGenerated (e : NoObjectGeneratedError γ) : ObjGenThrown γ
  | otherThrown (code : Nat) : ObjGenThrown γ

/-- parseAndValidateObjectResult in the source: parse the result text
(safeParseJSON or safeParseToon per the chosen format — the parameter
parseFn, which never throws), raising the could-not-parse terminal
error on parse failure; then validate through the output strategy (the
parameter validateFn, which may itself throw), raising the
did-not-match-schema terminal error on validation failure. -/
def parseAndValidateObjectResult {α β γ : Type}
    (parseFn : String → Except Cause α)
    (validateFn : α → Except (ObjGenThrown γ) (Except Cause β))
    (ctx : γ) (result : String) : Except (ObjGenThrown γ) β :=
  match parseFn result with
  | Except.error e =>
    Except.error (ObjGenThrown.noObjectGenerated
      ⟨"No object generated: could not parse the response.", e, result, ctx⟩)
  | Except.ok v =>
    match validateFn v with
    | Except.error t => Except.error t
    | Except.ok (Except.error e) =>
      Except.error (ObjGenThrown.noObjectGenerated
        ⟨"No object generated: response did not match schema.", e, result, ctx⟩)
    | Except.ok (Except.ok r) => Except.ok r

/-- parseAndValidateObjectResultWithRepair in the source: a first
attempt; on a terminal error whose cause is parse- or validation-class
and with a repair collaborator supplied, one repair invocation, then
either the original error (repair declined with null) or a single
second attempt whose outcome is final.  The second component counts
the repair collaborator's invocations. -/
def parseAndValidateObjectResultWithRepair {α β γ : Type}
    (parseFn : String → Except Cause α)
    (validateFn : α → Except (ObjGenThrown γ) (Except Cause β))
    (repairText : Option (String → Cause → Option String))
    (ctx : γ) (result : String) : Except (ObjGenThrown γ) β × Nat :=
  match parseAndValidateObjectResult parseFn validateFn ctx result with
  | Except.ok r => (Except.ok r, 0)
  | Except.error err =>
    match repairText, err with
    | some repairFn, ObjGenThrown.noObjectGenerated e =>
      if e.cause.isRepairable then
        match repairFn result e.cause with
        | none => (Except.error (ObjGenThrown.noObjectGenerated e), 1)
        | some repairedText =>
          (parseAndValidateObjectResult parseFn validateFn ctx repairedText, 1)
      else (Except.error (ObjGenThrown.noObjectGenerated e), 0)
    | _, _ => (Except.error err, 0)

/-- Claim C2: the repair collaborator is invoked at most once per
call, regardless of the outcome; and whenever it returns null, the
original terminal error of the first attempt — carrying the first
attempt's cause — is raised. -/
theorem withRepair_at_most_once {α β γ : Type}
    (parseFn : String → Except Cause α)
    (validateFn : α → Except (ObjGenThrown γ) (Except Cause β))
    (repairFn : String → Cause → Option String)
    (ctx : γ) (result : String) (e : NoObjectGeneratedError γ)
    (hfirst : parseAndValidateObjectResult parseFn validateFn ctx result =
      Except.error (ObjGenThrown.noObjectGenerated e))
    (hgate : e.cause.isRepairable = true)
    (hnull : repairFn result e.cause = none) :
    parseAndValidateObjectResultWithRepair parseFn validateFn (some repairFn)
        ctx result =
      (Except.error (ObjGenThrown.noObjectGenerated e), 1) ∧
    (∀ (rt : Option (String → Cause → Option String)) (t : String),
      (parseAndValidateObjectResultWithRepair parseFn validateFn
        rt ctx t).2 ≤ 1) := by
  constructor
  · unfold parseAndValidateObjectResultWithRepair
    rw [hfirst]
    simp [hgate, hnull]
  · intro rt t
    unfold parseAndValidateObjectResultWithRepair
    cases h : parseAndValidateObjectResult parseFn validateFn ctx t with
    | ok r => simp
    | error err =>
      cases rt with
      | none => simp
      | some rf =>
        cases err with
        | otherThrown c => simp
        | noObjectGenerated e2 =>
          by_cases hg : e2.cause.isRepairable
          · cases hr : rf t e2.cause <;> simp [hg, hr]
          · simp [hg]

/-- Claim C2 witness: a concrete first-attempt parse failure with a
declining repair collaborator keeps the original terminal error, with
exactly one repair invocation; and the invocation count is bounded by
one for every input. -/
theorem withRepair_at_most_once_witness :
    parseAndValidateObjectResultWithRepair
        (fun _ => Except.error (Cause.jsonParse 0))
        (fun v : Nat => Except.ok (Except.ok v))
        (some (fun _ _ => none)) () "t" =
      (Except.error (ObjGenThrown.noObjectGenerated
        ⟨"No object generated: could not parse the response.",
          Cause.jsonParse 0, "t", ()⟩), 1) ∧
    (∀ (rt : Option (String → Cause → Option String)) (t : String),
      (parseAndValidateObjectResultWithRepair
        (fun _ => Except.error (Cause.jsonParse 0))
        (fun v : Nat => Except.ok (Except.ok v)) rt () t).2 ≤ 1) :=
  withRepair_at_most_once (fun _ => Except.error (Cause.jsonParse 0))
    (fun v : Nat => Except.ok (Except.ok v)) (fun _ _ => none) () "t"
    ⟨"No object generated: could not parse the response.",
      Cause.jsonParse 0, "t", ()⟩ rfl rfl rfl

/-- Claim C6: repair is attempted only when a collaborator is supplied
and the terminal error's cause is decode-class or validation-class:
with no collaborator the first error is re-raised unchanged; a
non-terminal thrown error is re-raised unchanged with no repair
invocation; a terminal error with an unrecognized cause class is
re-raised unchanged with no repair invocation; and when the repair
collaborator supplies replacement text, any failure of the second
attempt raises the second attempt's error, with exactly one repair
invocation and no further repair. -/
theorem withRepair_gate_and_second_failure {α β γ : Type}
    (parseFn : String → Except Cause α)
    (validateFn : α → Except (ObjGenThrown γ) (Except Cause β))
    (ctx : γ) (result : String) :
    (∀ err : ObjGenThrown γ,
      parseAndValidateObjectResult parseFn validateFn ctx result =
        Except.error err →
      parseAndValidateObjectResultWithRepair parseFn validateFn none
          ctx result =
        (Except.error err, 0)) ∧
    (∀ (rf : String → Cause → Option String) (c : Nat),
      parseAndValidateObjectResult parseFn validateFn ctx result =
        Except.error (ObjGenThrown.otherThrown c) →
      parseAndValidateObjectResultWithRepair parseFn validateFn (some rf)
          ctx result =
        (Except.error (ObjGenThrown.otherThrown c), 0)) ∧
    (∀ (rf : String → Cause → Option String) (e : NoObjectGeneratedError γ),
      parseAndValidateObjectResult parseFn validateFn ctx result =
        Except.error (ObjGenThrown.noObjectGenerated e) →
      e.cause.isRepairable = false →
      parseAndValidateObjectResultWithRepair parseFn validateFn (some rf)
          ctx result =
        (Except.error (ObjGenThrown.noObjectGenerated e), 0)) ∧
    (∀ (rf : String → Cause → Option String) (e : NoObjectGeneratedError γ)
        (repaired : String) (err2 : ObjGenThrown γ),
      parseAndValidateObjectResult parseFn validateFn ctx result =
        Except.error (ObjGenThrown.noObjectGenerated e) →
      e.cause.isRepairable = true →
      rf result e.cause = some repaired →
      parseAndValidateObjectResult parseFn validateFn ctx repaired =
        Except.error err2 →
      parseAndValidateObjectResultWithRepair parseFn validateFn (some rf)
          ctx result =
        (Except.error err2, 1)) := by
  refine ⟨?_, ?_, ?_, ?_⟩
  · intro err h
    unfold parseAndValidateObjectResultWithRepair
    rw [h]
  · intro rf c h
    unfold parseAndValidateObjectResultWithRepair
    rw [h]
  · intro rf e h hg
    unfold parseAndValidateObjectResultWithRepair
    rw [h]
    simp [hg]
  · intro rf e repaired err2 h hg hr h2
    unfold parseAndValidateObjectResultWithRepair
    rw [h]
    simp [hg, hr, h2]

/-- Claim C6 witness: the four gate behaviours at concrete
collaborators — no collaborator supplied, a validator that throws a
non-terminal error, a validation failure with an unrecognized cause
class, and a failing second attempt after replacement text. -/
theorem withRepair_gate_witness :
    parseAndValidateObjectResultWithRepair
        (fun _ => Except.error (Cause.jsonParse 0))
        (fun v : Nat => Except.ok (Except.ok v)) none () "t" =
      (Except.error (ObjGenThrown.noObjectGenerated
        ⟨"No object generated: could not parse the response.",
          Cause.jsonParse 0, "t", ()⟩), 0) ∧
    parseAndValidateObjectResultWithRepair
        (fun _ => Except.ok 0)
        ((fun _ => Except.error (ObjGenThrown.otherThrown 5)) :
          Nat → Except (ObjGenThrown Unit) (Except Cause Nat))
        (some (fun _ _ => some "u")) () "t" =
      (Except.error (ObjGenThrown.otherThrown 5), 0) ∧
    parseAndValidateObjectResultWithRepair
        (fun _ => Except.ok 0)
        (fun _ : Nat =>
          (Except.ok (Except.error (Cause.other 2)) :
            Except (ObjGenThrown Unit) (Except Cause Nat)))
        (some (fun _ _ => some "u")) () "t" =
      (Except.error (ObjGenThrown.noObjectGenerated
        ⟨"No object generated: response did not match schema.",
          Cause.other 2, "t", ()⟩), 0) ∧
    parseAndValidateObjectResultWithRepair
        (fun _ => Except.error (Cause.jsonParse 0))
        (fun v : Nat => Except.ok (Except.ok v))
        (some (fun _ _ => some "u")) () "t" =
      (Except.error (ObjGenThrown.noObjectGenerated
        ⟨"No object generated: could not parse the response.",
          Cause.jsonParse 0, "u", ()⟩), 1) :=
  ⟨(withRepair_gate_and_second_failure
      (fun _ => Except.error (Cause.jsonParse 0))
      (fun v : Nat => Except.ok (Except.ok v)) () "t").1 _ rfl,
   (withRepair_gate_and_second_failure (fun _ => Except.ok 0)
      ((fun _ => Except.error (ObjGenThrown.otherThrown 5)) :
        Nat → Except (ObjGenThrown Unit) (Except Cause Nat))
      () "t").2.1 _ 5 rfl,
   (withRepair_gate_and_second_failure (fun _ => Except.ok 0)
      (fun _ : Nat =>
        (Except.ok (Except.error (Cause.other 2)) :
          Except (ObjGenThrown Unit) (Except Cause Nat)))
      () "t").2.2.1 _
      ⟨"No object generated: response did not match schema.",
        Cause.other 2, "t", ()⟩ rfl rfl,
   (withRepair_gate_and_second_failure
      (fun _ => Except.error (Cause.jsonParse 0))
      (fun v : Nat => Except.ok (Except.ok v)) () "t").2.2.2 _
      ⟨"No object generated: could not parse the response.",
        Cause.jsonParse 0, "t", ()⟩ "u" _ rfl rfl rfl rfl⟩

end ToonFmt
